import Mathlib

/-!
Verification development for the video batch-transcoding tool
(`encoder.py` / `main.py`).

The Python source is shallowly embedded as executable Lean definitions:

* strings fed to the parsers are `List Char`;
* Python float values are modelled exactly: every number this program
  handles comes from a decimal literal and is only added, multiplied by
  integer constants, divided by powers of ten, compared, and clamped, so
  all values are decimal rationals, represented by `PyDec` (an integer
  mantissa with a power-of-ten denominator) with value map
  `PyDec.val : PyDec → ℚ`.  None of the verified properties depend on
  binary floating-point rounding;
* the external prober and encoder processes are modelled by small
  environment types describing what the external world may answer;
* Python exceptions that can escape a function are modelled with
  `Except PyErr`; exceptions the source catches are folded into the
  ordinary return value exactly where the source catches them.

The digit class of the progress regex (`\d`) and of Python float parsing
is modelled as the ASCII digits `0`–`9`; the diagnostic stream of the
encoder is ASCII.  Python `float()` is modelled on the grammar
`[+-] digits [. digits]` — exponents, `inf`/`nan` and surrounding
whitespace are never produced by the inputs that reach it here.
-/

/-! ### Exact decimal numbers (the Python float values of this program) -/

/-- An exact decimal: the value `mant / 10 ^ exp`. -/
structure PyDec where
  mant : Int
  exp : Nat
deriving DecidableEq

/-- The rational value of a decimal. -/
def PyDec.val (a : PyDec) : ℚ := (a.mant : ℚ) / 10 ^ a.exp

/-- The float literal `0.0`. -/
def pZero : PyDec := ⟨0, 0⟩

/-- Python `<` on floats (exact: cross-multiplied by the positive
power-of-ten denominators). -/
def plt (a b : PyDec) : Bool := a.mant * 10 ^ b.exp < b.mant * 10 ^ a.exp

/-- Python `==` on floats (exact value equality). -/
def peq (a b : PyDec) : Bool := a.mant * 10 ^ b.exp = b.mant * 10 ^ a.exp

/-- Python `min(a, b)`: keeps `a` unless `b` compares strictly below it. -/
def pmin (a b : PyDec) : PyDec := if plt b a then b else a

/-- Python `a + b` on these decimals. -/
def padd (a b : PyDec) : PyDec :=
  ⟨a.mant * 10 ^ b.exp + b.mant * 10 ^ a.exp, a.exp + b.exp⟩

/-- Python `a * k` for the integer constants 3600 and 60. -/
def pmulNat (a : PyDec) (k : Nat) : PyDec := ⟨a.mant * k, a.exp⟩

/-- Python `a / 10 ^ k` (the `/ 100.0` of the source). -/
def pdivPow10 (a : PyDec) (k : Nat) : PyDec := ⟨a.mant, a.exp + k⟩

/-- Python unary minus. -/
def pneg (a : PyDec) : PyDec := ⟨-a.mant, a.exp⟩

/-! ### Constants of `encoder.py` (lines 10–26) -/

def DEFAULT_CRF_VALUE : Nat := 20

def DEFAULT_PRESET : String := "medium"

def NVENC_CQP_VALUE : Nat := 23

def NVENC_PRESET : String := "medium"

def AUDIO_CODEC : String := "aac"

def AUDIO_BITRATE : String := "192k"

def INPUT_EXTENSIONS : List String := [".mov", ".mp4", ".avi", ".mkv"]

def OUTPUT_EXTENSION : String := ".mp4"

def FFMPEG_PATH : String := "ffmpeg"

def FFPROBE_PATH : String := "ffprobe"

/-! ### Python string primitives used by the source -/

/-- The ASCII digit class: what `\d` of the progress regex and the digit
positions of Python float syntax accept here. -/
def isDig (c : Char) : Bool := 48 ≤ c.toNat && c.toNat ≤ 57

/-- Python `str.split(sep)` for a one-character separator: splits at every
occurrence, keeps empty pieces, and the split of an empty string is
`[""]`. -/
def pySplit (sep : Char) : List Char → List (List Char)
  | [] => [[]]
  | c :: rest =>
    if c = sep then [] :: pySplit sep rest
    else
      match pySplit sep rest with
      | [] => [[c]]
      | t :: ts => (c :: t) :: ts

/-- Value of a digit string, most significant digit first. -/
def digitsVal (cs : List Char) : Nat :=
  cs.foldl (fun a c => 10 * a + (c.toNat - 48)) 0

/-- Python `float(s)` on an unsigned body: digits with an optional single
point; at least one digit overall.  `none` models `ValueError`. -/
def pyFloatBody (body : List Char) : Option PyDec :=
  match body.dropWhile isDig with
  | [] =>
    if (body.takeWhile isDig).isEmpty then none
    else some ⟨(digitsVal (body.takeWhile isDig) : Int), 0⟩
  | '.' :: frac =>
    if frac.all isDig ∧ ¬((body.takeWhile isDig).isEmpty ∧ frac.isEmpty)
    then some ⟨(digitsVal (body.takeWhile isDig ++ frac) : Int), frac.length⟩
    else none
  | _ => none

/-- Python `float(s)`: optional sign, then an unsigned decimal body.
`none` models `ValueError`. -/
def pyFloat? (cs : List Char) : Option PyDec :=
  match cs with
  | [] => none
  | c :: r =>
    if c = '-' then (pyFloatBody r).map pneg
    else if c = '+' then pyFloatBody r
    else pyFloatBody (c :: r)

/-! ### `time_to_seconds` (`encoder.py` lines 28–47)

The source splits on `:`, requires exactly three parts, splits the last
part on `.` into exactly two pieces (Python tuple unpacking raises
otherwise), converts all four pieces with `float`, and returns
`h*3600 + m*60 + s + ms/100`.  Every failure is swallowed by the bare
`except` and yields `0.0`. -/

def time_to_seconds (t : List Char) : PyDec :=
  match pySplit ':' t with
  | [p0, p1, p2] =>
    match pySplit '.' p2 with
    | [sPart, msPart] =>
      match pyFloat? p0, pyFloat? p1, pyFloat? sPart, pyFloat? msPart with
      | some h, some m, some s, some ms =>
        padd (padd (padd (pmulNat h 3600) (pmulNat m 60)) s) (pdivPow10 ms 2)
      | _, _, _, _ => pZero
    | _ => pZero
  | _ => pZero

/-! ### `TIME_REGEX` search (`encoder.py` line 26, used at line 164)

`re.search` with pattern `time=(\d{2}):(\d{2}):(\d{2})\.(\d{2})`: the
leftmost position where the fixed-shape pattern matches; the four
captured groups are the four two-digit fields. -/

structure TGroups where
  h1 : Char
  h2 : Char
  m1 : Char
  m2 : Char
  s1 : Char
  s2 : Char
  f1 : Char
  f2 : Char
deriving DecidableEq

/-- Match of the pattern at the start of `l`. -/
def matchTimeAt (l : List Char) : Option TGroups :=
  match l with
  | a :: b :: c :: d :: e :: h1 :: h2 :: x :: m1 :: m2 :: y :: s1 :: s2 :: z :: f1 :: f2 :: _ =>
    if a = 't' ∧ b = 'i' ∧ c = 'm' ∧ d = 'e' ∧ e = '=' ∧ x = ':' ∧ y = ':' ∧ z = '.' ∧
       isDig h1 = true ∧ isDig h2 = true ∧ isDig m1 = true ∧ isDig m2 = true ∧
       isDig s1 = true ∧ isDig s2 = true ∧ isDig f1 = true ∧ isDig f2 = true
    then some ⟨h1, h2, m1, m2, s1, s2, f1, f2⟩
    else none
  | _ => none

/-- `re.search`: try every start position, leftmost first. -/
def searchTime : List Char → Option TGroups
  | [] => none
  | c :: rest =>
    match matchTimeAt (c :: rest) with
    | some g => some g
    | none => searchTime rest

/-- The string the source rebuilds from the four captured groups
(line 168) and feeds to `time_to_seconds`. -/
def regroup (g : TGroups) : List Char :=
  [g.h1, g.h2, ':', g.m1, g.m2, ':', g.s1, g.s2, '.', g.f1, g.f2]

/-- Numeric value of a two-digit group. -/
def d2n (c1 c2 : Char) : Nat := 10 * (c1.toNat - 48) + (c2.toNat - 48)

/-! ### The progress loop (`encoder.py` lines 153–177)

State is `pbar.n` (starts at 0).  For each diagnostic line: on a regex
match the matched groups are reformatted, converted by `time_to_seconds`,
clamped to the total duration with `min`, and `pbar` is updated only when
the clamped value strictly exceeds `pbar.n` (after which `pbar.n` equals
the clamped value).  The returned list is the sequence of `pbar.n` values
right after each update, i.e. the emitted progress values. -/

def progressLoop (total : PyDec) : PyDec → List (List Char) → List PyDec
  | _, [] => []
  | n, l :: ls =>
    match searchTime l with
    | none => progressLoop total n ls
    | some g =>
      let clamped := pmin (time_to_seconds (regroup g)) total
      if plt n clamped then clamped :: progressLoop total clamped ls
      else progressLoop total n ls

/-- Emitted progress values over a whole diagnostic stream, from the
initial `pbar.n = 0`. -/
def progressStates (total : PyDec) (lines : List (List Char)) : List PyDec :=
  progressLoop total pZero lines

/-! ### The duration probe `get_duration` (`encoder.py` lines 49–66)

The prober is invoked with `subprocess.run(..., check=True)` and its
standard output is fed through `json.loads`; then
`float(duration_info['format']['duration'])` is taken.  The `except`
clause catches exactly `CalledProcessError` (non-zero exit),
`FileNotFoundError` (prober executable missing), `KeyError` (missing
field) and `ValueError` (unparseable JSON text, and a string that
`float` rejects); each of those is logged and becomes `0.0`.  Any other
exception — in particular the `TypeError` that Python raises when a
non-dictionary is indexed with a string key or when `float` is applied
to `None`, a list or a dictionary — escapes `get_duration`. -/

/-- A parsed JSON value, as `json.loads` can return it. -/
inductive PyJson where
  | null : PyJson
  | bool : Bool → PyJson
  | num : PyDec → PyJson
  | str : String → PyJson
  | arr : List PyJson → PyJson
  | obj : List (String × PyJson) → PyJson

/-- The Python exceptions that matter at the probe boundary. -/
inductive PyErr where
  | keyError : PyErr
  | valueError : PyErr
  | typeError : PyErr
deriving DecidableEq

/-- Python dictionary lookup built by `json.loads`: with duplicate keys
the last occurrence wins. -/
def lookupJ (fields : List (String × PyJson)) (k : String) : Option PyJson :=
  fields.foldl (fun acc p => if p.1 = k then some p.2 else acc) none

/-- Python `j[k]` for a string key `k`. -/
def pyIndex (j : PyJson) (k : String) : Except PyErr PyJson :=
  match j with
  | .obj fields =>
    match lookupJ fields k with
    | some v => .ok v
    | none => .error .keyError
  | _ => .error .typeError

/-- Python `float(j)` on a JSON value (`float(True)` is `1.0`). -/
def pyFloatJson (j : PyJson) : Except PyErr PyDec :=
  match j with
  | .num q => .ok q
  | .str s =>
    match pyFloat? s.data with
    | some q => .ok q
    | none => .error .valueError
  | .bool b => .ok (if b then ⟨1, 0⟩ else pZero)
  | _ => .error .typeError

/-- What the external prober invocation can do. -/
inductive ProberBehavior where
  | missing : ProberBehavior
  | exitNonzero : ProberBehavior
  | badJson : ProberBehavior
  | output : PyJson → ProberBehavior

/-- Outcome of the `try` body of `get_duration`, with the caught /
uncaught split of its `except` clause applied. -/
inductive ProbeRes where
  | ok : PyDec → ProbeRes
  | failedCaught : ProbeRes
  | raisedTypeError : ProbeRes
deriving DecidableEq

def probeEval (pb : ProberBehavior) : ProbeRes :=
  match pb with
  | .missing => .failedCaught
  | .exitNonzero => .failedCaught
  | .badJson => .failedCaught
  | .output j =>
    match (pyIndex j "format").bind (fun fj => (pyIndex fj "duration").bind pyFloatJson) with
    | .ok q => .ok q
    | .error .keyError => .failedCaught
    | .error .valueError => .failedCaught
    | .error .typeError => .raisedTypeError

/-- `get_duration` as seen by its caller: the parsed duration, the `0.0`
that every caught failure is converted to, or the escaping exception. -/
def get_duration (pb : ProberBehavior) : Except PyErr PyDec :=
  match probeEval pb with
  | .ok q => .ok q
  | .failedCaught => .ok pZero
  | .raisedTypeError => .error .typeError

/-! ### Paths, profile selection and command construction -/

/-- An input file: the directory components the walk found it under, the
stem, and the extension (`Path.stem` / `Path.name` of the source). -/
structure InPath where
  dirs : List String
  stem : String
  ext : String
deriving DecidableEq

def InPath.name (p : InPath) : String := p.stem ++ p.ext

def InPath.pathStr (p : InPath) : String :=
  String.intercalate "/" (p.dirs ++ [p.name])

/-- The prober command line (`encoder.py` lines 52–58); the canonical
absolute path of `resolve()` is abstracted to the path string. -/
def probeCmd (inp : InPath) : List String :=
  [FFPROBE_PATH, "-v", "error", "-show_entries", "format=duration", "-of", "json",
   inp.pathStr]

/-- The per-mode encoder settings chosen at `encoder.py` lines 72–86. -/
structure EncodeProfile where
  codec : String
  preset : String
  quality : List String
  tag : String
  extra : List String
deriving DecidableEq

def profileOf (use_gpu : Bool) : EncodeProfile :=
  if use_gpu then
    { codec := "hevc_nvenc"
      preset := NVENC_PRESET
      quality := ["-cq", toString NVENC_CQP_VALUE]
      tag := "NVENC_CQP" ++ toString NVENC_CQP_VALUE
      extra := ["-rc", "vbr", "-b:v", "0k", "-qmin", "0", "-qmax", "51"] }
  else
    { codec := "libx265"
      preset := DEFAULT_PRESET
      quality := ["-crf", toString DEFAULT_CRF_VALUE]
      tag := "CRF" ++ toString DEFAULT_CRF_VALUE
      extra := [] }

/-- Output location (`encoder.py` lines 96–97): directory component and
file name `<stem>_<tag><ext>`, flat in the output directory. -/
def outputPathOf (output_dir : String) (inp : InPath) (use_gpu : Bool) : String × String :=
  (output_dir, inp.stem ++ "_" ++ (profileOf use_gpu).tag ++ OUTPUT_EXTENSION)

/-- The full encoder argument list (`encoder.py` lines 108–139). -/
def buildCommand (use_gpu : Bool) (inp out : String) : List String :=
  let p := profileOf use_gpu
  [FFMPEG_PATH, "-i", inp, "-map_metadata", "0", "-c:v", p.codec]
    ++ p.quality ++ ["-preset", p.preset] ++ p.extra
    ++ ["-tag:v", "hvc1"]
    ++ ["-c:a", AUDIO_CODEC, "-b:a", AUDIO_BITRATE]
    ++ ["-stats"] ++ [out]

/-! ### `convert_video_file` (`encoder.py` lines 68–200)

The job's observable behaviour: which subprocesses it spawns, which log
lines it prints, and how it ends.  The probe call at line 90 is outside
the `try` that starts at line 142, so an exception escaping
`get_duration` escapes the whole function; inside that `try`, a
`FileNotFoundError` from launching the encoder is caught and merely
reported (the function then returns normally), and any other exception
is swallowed by the `except Exception` clause. -/

/-- What the external encoder invocation can do. -/
inductive EncoderBehavior where
  | missing : EncoderBehavior
  | runs : List (List Char) → Int → EncoderBehavior

/-- Environment of one file's job: prober answer, whether the computed
output path already exists, encoder answer. -/
structure FileEnv where
  prober : ProberBehavior
  outputExists : Bool
  encoder : EncoderBehavior

/-- How a single job ends (the terminal print of the source). -/
inductive Outcome where
  | skippedNoDuration : Outcome
  | skippedExists : Outcome
  | success : Outcome
  | failed : Int → Outcome
  | fatalEncoderMissing : Outcome
deriving DecidableEq

/-- The log lines the job prints, in order. -/
inductive Log where
  | infoMode : Bool → Log
  | errProbe : Log
  | skipNoDuration : Log
  | skipExists : Log
  | start : Log
  | success : Log
  | errorRc : Int → Log
  | fatalNotFound : Log
deriving DecidableEq

instance instDecEqExcept {ε α : Type} [DecidableEq ε] [DecidableEq α] :
    DecidableEq (Except ε α) := fun
  | .ok a, .ok b =>
    match decEq a b with
    | isTrue h => isTrue (h ▸ rfl)
    | isFalse h => isFalse (fun he => h (Except.ok.inj he))
  | .ok _, .error _ => isFalse (fun he => Except.noConfusion he)
  | .error _, .ok _ => isFalse (fun he => Except.noConfusion he)
  | .error e, .error f =>
    match decEq e f with
    | isTrue h => isTrue (h ▸ rfl)
    | isFalse h => isFalse (fun he => h (Except.error.inj he))

/-- Everything observable about one job. -/
structure JobTrace where
  spawned : List (List String)
  logs : List Log
  result : Except PyErr Outcome
deriving DecidableEq

/-- The subprocesses created by the probe: none when the prober
executable is missing, otherwise the prober command. -/
def probeSpawns (pb : ProberBehavior) (inp : InPath) : List (List String) :=
  match pb with
  | .missing => []
  | _ => [probeCmd inp]

/-- `convert_video_file` from the duration check at line 91 onward. -/
def runAfterProbe (inp : InPath) (output_dir : String) (use_gpu : Bool) (env : FileEnv)
    (spawn0 : List (List String)) (logs : List Log) (total : PyDec) : JobTrace :=
  if peq total pZero then
    ⟨spawn0, logs ++ [Log.skipNoDuration], .ok .skippedNoDuration⟩
  else if env.outputExists then
    ⟨spawn0, logs ++ [Log.skipExists], .ok .skippedExists⟩
  else
    let op := outputPathOf output_dir inp use_gpu
    let cmd := buildCommand use_gpu inp.pathStr (op.1 ++ "/" ++ op.2)
    match env.encoder with
    | .missing => ⟨spawn0, logs ++ [Log.start, Log.fatalNotFound], .ok .fatalEncoderMissing⟩
    | .runs _ rc =>
      if rc = 0 then ⟨spawn0 ++ [cmd], logs ++ [Log.start, Log.success], .ok .success⟩
      else ⟨spawn0 ++ [cmd], logs ++ [Log.start, Log.errorRc rc], .ok (.failed rc)⟩

def convert_video_file (inp : InPath) (output_dir : String) (use_gpu : Bool)
    (env : FileEnv) : JobTrace :=
  let logs0 : List Log := [Log.infoMode use_gpu]
  let spawn0 := probeSpawns env.prober inp
  match probeEval env.prober with
  | .raisedTypeError => ⟨spawn0, logs0, .error .typeError⟩
  | .failedCaught => runAfterProbe inp output_dir use_gpu env spawn0 (logs0 ++ [Log.errProbe]) pZero
  | .ok q => runAfterProbe inp output_dir use_gpu env spawn0 logs0 q

/-! ### `process_directory` (`encoder.py` lines 202–221)

The walk yields file names; names passing the case-insensitive
extension filter get a job.  The loop body has no exception handling of
its own, so an exception escaping a job aborts the whole run; otherwise
the loop simply continues with the next file whatever the previous
job's outcome was. -/

/-- An encoder invocation, as opposed to a prober invocation. -/
def isEncoderCmd (c : List String) : Bool := c.head? == some FFMPEG_PATH

/-- `filename.lower()` (ASCII). -/
def pyLower (s : String) : List Char :=
  s.data.map (fun c => if 'A' ≤ c ∧ c ≤ 'Z' then Char.ofNat (c.toNat + 32) else c)

/-- `filename.lower().endswith(tuple(INPUT_EXTENSIONS))`. -/
def matchesInputExt (name : String) : Bool :=
  INPUT_EXTENSIONS.any (fun e => e.data.isSuffixOf (pyLower name))

/-- The batch run's observable behaviour. -/
structure BatchTrace where
  invoked : List InPath
  results : List (InPath × Outcome)
  spawned : List (List String)
  crashed : Option PyErr
deriving DecidableEq

/-- The loop over the discovered files. -/
def runFiles (output_dir : String) (use_gpu : Bool) (envOf : InPath → FileEnv) :
    List InPath → BatchTrace
  | [] => ⟨[], [], [], none⟩
  | f :: rest =>
    let t := convert_video_file f output_dir use_gpu (envOf f)
    match t.result with
    | .ok o =>
      let b := runFiles output_dir use_gpu envOf rest
      ⟨f :: b.invoked, (f, o) :: b.results, t.spawned ++ b.spawned, b.crashed⟩
    | .error e => ⟨[f], [], t.spawned, some e⟩

/-- `process_directory`: extension filter, then one job per match. -/
def process_directory (files : List InPath) (output_dir : String) (use_gpu : Bool)
    (envOf : InPath → FileEnv) : BatchTrace :=
  runFiles output_dir use_gpu envOf (files.filter (fun f => matchesInputExt f.name))

/-- The {Success, Skipped, Failed} classification of a recorded job end:
the two skip prints are `Skipped`, exit code 0 is `Success`, and both
the non-zero-exit print and the encoder-missing report end the file
without output, recorded as `Failed`. -/
inductive Status where
  | success : Status
  | skipped : Status
  | failed : Status
deriving DecidableEq

def statusOf (o : Outcome) : Status :=
  match o with
  | .skippedNoDuration => .skipped
  | .skippedExists => .skipped
  | .success => .success
  | .failed _ => .failed
  | .fatalEncoderMissing => .failed


/-! ### Spec-side auxiliary definitions used only in theorem statements -/

/-- The exact character shape `time=HH:MM:SS.ff` of the progress pattern,
with the four two-digit fields of `g`. -/
def markerChars (g : TGroups) : List Char :=
  't' :: 'i' :: 'm' :: 'e' :: '=' :: g.h1 :: g.h2 :: ':' :: g.m1 :: g.m2 :: ':' ::
    g.s1 :: g.s2 :: '.' :: g.f1 :: g.f2 :: []

/-- All four fields of `g` consist of digits. -/
def groupsDigits (g : TGroups) : Prop :=
  isDig g.h1 = true ∧ isDig g.h2 = true ∧ isDig g.m1 = true ∧ isDig g.m2 = true ∧
  isDig g.s1 = true ∧ isDig g.s2 = true ∧ isDig g.f1 = true ∧ isDig g.f2 = true

/-- The spec's notion of a line matching `time=HH:MM:SS.ff` with two-digit
fields: some occurrence of the marker shape inside the line. -/
def hasTimeMarker (line : List Char) : Prop :=
  ∃ g pre post, groupsDigits g ∧ line = pre ++ markerChars g ++ post

/-- The leading fields shared verbatim by both encoder argument lists. -/
def cmdShared1 (inp : String) : List String :=
  [FFMPEG_PATH, "-i", inp, "-map_metadata", "0", "-c:v"]

/-- The trailing fields shared verbatim by both encoder argument lists:
container tag, audio codec, audio bitrate, statistics flag, output. -/
def cmdShared2 (out : String) : List String :=
  ["-tag:v", "hvc1", "-c:a", AUDIO_CODEC, "-b:a", AUDIO_BITRATE, "-stats", out]

/-! ## Lemmas about the exact decimals -/

theorem val_pZero : pZero.val = 0 := by
  simp [PyDec.val, pZero]

theorem plt_iff (a b : PyDec) : plt a b = true ↔ a.val < b.val := by
  unfold plt PyDec.val
  rw [div_lt_div_iff₀ (by positivity) (by positivity), decide_eq_true_eq]
  constructor
  · intro h; exact_mod_cast h
  · intro h; exact_mod_cast h

theorem peq_iff (a b : PyDec) : peq a b = true ↔ a.val = b.val := by
  unfold peq PyDec.val
  rw [div_eq_div_iff (by positivity) (by positivity), decide_eq_true_eq]
  constructor
  · intro h; exact_mod_cast h
  · intro h; exact_mod_cast h

theorem val_pmin (a b : PyDec) : (pmin a b).val = min a.val b.val := by
  unfold pmin
  by_cases h : plt b a = true
  · rw [if_pos h, min_eq_right (le_of_lt ((plt_iff b a).mp h))]
  · rw [if_neg h, min_eq_left]
    rcases lt_or_ge a.val b.val with hl | hg
    · exact le_of_lt hl
    · rcases eq_or_lt_of_le hg with he | hlt
      · exact le_of_eq he.symm
      · exact absurd ((plt_iff b a).mpr hlt) h

theorem val_padd (a b : PyDec) : (padd a b).val = a.val + b.val := by
  unfold padd PyDec.val
  have h1 : ((10 : ℚ) ^ a.exp) ≠ 0 := by positivity
  have h2 : ((10 : ℚ) ^ b.exp) ≠ 0 := by positivity
  rw [pow_add, div_add_div _ _ h1 h2, div_eq_div_iff (by positivity) (by positivity)]
  push_cast
  ring

theorem val_pmulNat (a : PyDec) (k : Nat) : (pmulNat a k).val = a.val * k := by
  unfold pmulNat PyDec.val
  push_cast
  ring

theorem val_pdivPow10 (a : PyDec) (k : Nat) :
    (pdivPow10 a k).val = a.val / 10 ^ k := by
  unfold pdivPow10 PyDec.val
  rw [pow_add, div_div]

/-! ## The progress loop invariant -/

theorem progressLoop_inv (total : PyDec) :
    ∀ (lines : List (List Char)) (n : PyDec), 0 ≤ n.val → n.val ≤ total.val →
      (∀ v ∈ progressLoop total n lines, 0 ≤ v.val ∧ v.val ≤ total.val) ∧
      List.Chain (fun x y : PyDec => x.val ≤ y.val) n (progressLoop total n lines) := by
  intro lines
  induction lines with
  | nil =>
    intro n hn hnD
    simp [progressLoop, List.Chain.nil]
  | cons l ls ih =>
    intro n hn hnD
    cases hm : searchTime l with
    | none =>
      simp only [progressLoop, hm]
      exact ih n hn hnD
    | some g =>
      simp only [progressLoop, hm]
      set c := pmin (time_to_seconds (regroup g)) total with hc
      have hcle : c.val ≤ total.val := by
        rw [hc, val_pmin]; exact min_le_right _ _
      by_cases hlt : plt n c = true
      · rw [if_pos hlt]
        have hnc : n.val < c.val := (plt_iff n c).mp hlt
        have hc0 : 0 ≤ c.val := le_trans hn (le_of_lt hnc)
        obtain ⟨hb, hch⟩ := ih c hc0 hcle
        constructor
        · intro v hv
          rcases List.mem_cons.mp hv with rfl | hmem
          · exact ⟨hc0, hcle⟩
          · exact hb v hmem
        · exact List.Chain.cons (le_of_lt hnc) hch
      · rw [if_neg hlt]
        exact ih n hn hnD

/-- **C1.**  For every total duration `D ≥ 0` and every diagnostic stream,
each emitted progress value lies in `[0, D]` and the emitted sequence is
non-decreasing: a matched timestamp converting to at most the current
progress produces no update, and one exceeding `D` is clamped to exactly
`D`.  In the spec's scenario (`time=00:00:10.00`, then a regressed
`time=00:00:05.00`, then `time=00:02:10.00`, with `D = 120.0`) the loop
emits `10.0`, then nothing, then exactly `120.0`. -/
theorem progress_clamped_monotone :
    (∀ total : PyDec, 0 ≤ total.val → ∀ lines : List (List Char),
      (∀ v ∈ progressStates total lines, 0 ≤ v.val ∧ v.val ≤ total.val) ∧
      List.Chain' (· ≤ ·) ((progressStates total lines).map PyDec.val)) ∧
    (progressStates ⟨120, 0⟩
      ["time=00:00:10.00".data, "time=00:00:05.00".data,
       "time=00:02:10.00".data]).map PyDec.val = [10, 120] := by
  constructor
  · intro total hD lines
    obtain ⟨hb, hch⟩ :=
      progressLoop_inv total lines pZero (by rw [val_pZero]) (by rw [val_pZero]; exact hD)
    refine ⟨hb, ?_⟩
    rw [List.chain'_map]
    unfold progressStates
    cases hls : progressLoop total pZero lines with
    | nil => exact trivial
    | cons a t =>
      rw [hls] at hch
      cases hch with
      | cons hra hct => exact hct
  · have h : progressStates ⟨120, 0⟩
        ["time=00:00:10.00".data, "time=00:00:05.00".data,
         "time=00:02:10.00".data] = [⟨1000, 2⟩, ⟨120, 0⟩] := by decide
    rw [h]
    norm_num [PyDec.val]

/-- Closed instance of `progress_clamped_monotone`: its bounded-universal
part applied at the scenario's concrete duration and stream. -/
theorem progress_clamped_monotone_applied :
    (0 : ℚ) ≤ (⟨120, 0⟩ : PyDec).val ∧
    (∀ v ∈ progressStates ⟨120, 0⟩
        ["time=00:00:10.00".data, "time=00:00:05.00".data,
         "time=00:02:10.00".data], 0 ≤ v.val ∧ v.val ≤ (⟨120, 0⟩ : PyDec).val) :=
  ⟨by norm_num [PyDec.val],
   (progress_clamped_monotone.1 ⟨120, 0⟩ (by norm_num [PyDec.val])
     ["time=00:00:10.00".data, "time=00:00:05.00".data,
      "time=00:02:10.00".data]).1⟩

/-! ## The progress pattern and the timestamp conversion -/

theorem isDig_toNat {c : Char} (h : isDig c = true) :
    48 ≤ c.toNat ∧ c.toNat ≤ 57 := by
  unfold isDig at h
  rw [Bool.and_eq_true, decide_eq_true_eq, decide_eq_true_eq] at h
  exact h

theorem digit_ne {c : Char} (h : isDig c = true) :
    c ≠ ':' ∧ c ≠ '.' ∧ c ≠ '-' ∧ c ≠ '+' := by
  refine ⟨?_, ?_, ?_, ?_⟩ <;> rintro rfl <;> exact absurd h (by decide)

theorem pySplit_of_not_mem {sep : Char} : ∀ {l : List Char}, sep ∉ l →
    pySplit sep l = [l] := by
  intro l
  induction l with
  | nil => intro _; rfl
  | cons c t ih =>
    intro h
    rw [List.mem_cons, not_or] at h
    rw [pySplit, if_neg (fun he => h.1 he.symm), ih h.2]

theorem pySplit_append {sep : Char} : ∀ (a b : List Char), sep ∉ a →
    pySplit sep (a ++ sep :: b) = a :: pySplit sep b := by
  intro a
  induction a with
  | nil =>
    intro b _
    rw [List.nil_append, pySplit, if_pos rfl]
  | cons c t ih =>
    intro b h
    rw [List.mem_cons, not_or] at h
    rw [List.cons_append, pySplit, if_neg (fun he => h.1 he.symm), ih b h.2]

theorem digitsVal_pair (c1 c2 : Char) : digitsVal [c1, c2] = d2n c1 c2 := by
  unfold digitsVal d2n
  simp [List.foldl]

theorem pyFloat_two_digits {c1 c2 : Char} (h1 : isDig c1 = true) (h2 : isDig c2 = true) :
    pyFloat? [c1, c2] = some ⟨(d2n c1 c2 : Int), 0⟩ := by
  have hd : List.dropWhile isDig [c1, c2] = [] := by
    rw [List.dropWhile_cons_of_pos h1, List.dropWhile_cons_of_pos h2, List.dropWhile_nil]
  have ht : List.takeWhile isDig [c1, c2] = [c1, c2] := by
    rw [List.takeWhile_cons_of_pos h1, List.takeWhile_cons_of_pos h2, List.takeWhile_nil]
  have hb : pyFloatBody [c1, c2] = some ⟨(d2n c1 c2 : Int), 0⟩ := by
    unfold pyFloatBody
    rw [hd, ht, digitsVal_pair]
    rfl
  show (if c1 = '-' then Option.map pneg (pyFloatBody [c2])
    else if c1 = '+' then pyFloatBody [c2] else pyFloatBody [c1, c2]) = _
  rw [if_neg (digit_ne h1).2.2.1, if_neg (digit_ne h1).2.2.2, hb]

theorem val_two_digits (c1 c2 : Char) :
    (PyDec.mk (d2n c1 c2 : Int) 0).val = (d2n c1 c2 : ℚ) := by
  simp [PyDec.val]

theorem time_to_seconds_regroup (g : TGroups) (hg : groupsDigits g) :
    (time_to_seconds (regroup g)).val =
      (d2n g.h1 g.h2 : ℚ) * 3600 + (d2n g.m1 g.m2 : ℚ) * 60 +
      (d2n g.s1 g.s2 : ℚ) + (d2n g.f1 g.f2 : ℚ) / 100 := by
  obtain ⟨d1, d2, d3, d4, d5, d6, d7, d8⟩ := hg
  have n1 : ':' ∉ [g.h1, g.h2] := by
    intro hmem
    rcases List.mem_cons.mp hmem with he | hmem
    · exact (digit_ne d1).1 he.symm
    · rcases List.mem_cons.mp hmem with he | hmem
      · exact (digit_ne d2).1 he.symm
      · exact absurd hmem (List.not_mem_nil _)
  have n2 : ':' ∉ [g.m1, g.m2] := by
    intro hmem
    rcases List.mem_cons.mp hmem with he | hmem
    · exact (digit_ne d3).1 he.symm
    · rcases List.mem_cons.mp hmem with he | hmem
      · exact (digit_ne d4).1 he.symm
      · exact absurd hmem (List.not_mem_nil _)
  have n3 : ':' ∉ [g.s1, g.s2, '.', g.f1, g.f2] := by
    intro hmem
    rcases List.mem_cons.mp hmem with he | hmem
    · exact (digit_ne d5).1 he.symm
    rcases List.mem_cons.mp hmem with he | hmem
    · exact (digit_ne d6).1 he.symm
    rcases List.mem_cons.mp hmem with he | hmem
    · exact absurd he (by decide)
    rcases List.mem_cons.mp hmem with he | hmem
    · exact (digit_ne d7).1 he.symm
    rcases List.mem_cons.mp hmem with he | hmem
    · exact (digit_ne d8).1 he.symm
    · exact absurd hmem (List.not_mem_nil _)
  have n4 : '.' ∉ [g.s1, g.s2] := by
    intro hmem
    rcases List.mem_cons.mp hmem with he | hmem
    · exact (digit_ne d5).2.1 he.symm
    · rcases List.mem_cons.mp hmem with he | hmem
      · exact (digit_ne d6).2.1 he.symm
      · exact absurd hmem (List.not_mem_nil _)
  have e0 : regroup g =
      [g.h1, g.h2] ++ ':' :: ([g.m1, g.m2] ++ ':' :: [g.s1, g.s2, '.', g.f1, g.f2]) := rfl
  have e1 : pySplit ':' (regroup g) =
      [[g.h1, g.h2], [g.m1, g.m2], [g.s1, g.s2, '.', g.f1, g.f2]] := by
    rw [e0, pySplit_append _ _ n1, pySplit_append _ _ n2, pySplit_of_not_mem n3]
  have e2 : pySplit '.' [g.s1, g.s2, '.', g.f1, g.f2] = [[g.s1, g.s2], [g.f1, g.f2]] := by
    have e : [g.s1, g.s2, '.', g.f1, g.f2] = [g.s1, g.s2] ++ '.' :: [g.f1, g.f2] := rfl
    rw [e, pySplit_append _ _ n4,
      pySplit_of_not_mem (l := [g.f1, g.f2]) (by
        intro hmem
        rcases List.mem_cons.mp hmem with he | hmem
        · exact (digit_ne d7).2.1 he.symm
        · rcases List.mem_cons.mp hmem with he | hmem
          · exact (digit_ne d8).2.1 he.symm
          · exact absurd hmem (List.not_mem_nil _))]
  unfold time_to_seconds
  rw [e1]
  simp only []
  rw [e2]
  simp only []
  rw [pyFloat_two_digits d1 d2, pyFloat_two_digits d3 d4, pyFloat_two_digits d5 d6,
    pyFloat_two_digits d7 d8]
  simp only []
  rw [val_padd, val_padd, val_padd, val_pmulNat, val_pmulNat, val_pdivPow10,
    val_two_digits, val_two_digits, val_two_digits, val_two_digits]
  norm_num

theorem matchTimeAt_some {l : List Char} {g : TGroups} (h : matchTimeAt l = some g) :
    groupsDigits g ∧ ∃ post, l = markerChars g ++ post := by
  unfold matchTimeAt at h
  split at h
  · rename_i a b c d e h1 h2 x m1 m2 y s1 s2 z f1 f2 tail
    split at h
    · rename_i hcond
      obtain ⟨rfl, rfl, rfl, rfl, rfl, rfl, rfl, rfl, e1, e2, e3, e4, e5, e6, e7, e8⟩ := hcond
      cases h
      exact ⟨⟨e1, e2, e3, e4, e5, e6, e7, e8⟩, tail, rfl⟩
    · exact absurd h (by simp)
  · exact absurd h (by simp)

theorem matchTimeAt_marker {g : TGroups} (hg : groupsDigits g) (post : List Char) :
    matchTimeAt (markerChars g ++ post) = some g := by
  obtain ⟨e1, e2, e3, e4, e5, e6, e7, e8⟩ := hg
  show (if ('t' = 't' ∧ 'i' = 'i' ∧ 'm' = 'm' ∧ 'e' = 'e' ∧ '=' = '=' ∧ ':' = ':' ∧
      ':' = ':' ∧ '.' = '.' ∧
      isDig g.h1 = true ∧ isDig g.h2 = true ∧ isDig g.m1 = true ∧ isDig g.m2 = true ∧
      isDig g.s1 = true ∧ isDig g.s2 = true ∧ isDig g.f1 = true ∧ isDig g.f2 = true)
    then some ⟨g.h1, g.h2, g.m1, g.m2, g.s1, g.s2, g.f1, g.f2⟩ else none) = some g
  rw [if_pos ⟨rfl, rfl, rfl, rfl, rfl, rfl, rfl, rfl, e1, e2, e3, e4, e5, e6, e7, e8⟩]

theorem searchTime_some {l : List Char} {g : TGroups} (h : searchTime l = some g) :
    groupsDigits g ∧ ∃ pre post, l = pre ++ markerChars g ++ post := by
  induction l with
  | nil => exact absurd h (by simp [searchTime])
  | cons c rest ih =>
    rw [searchTime] at h
    cases hm : matchTimeAt (c :: rest) with
    | some g2 =>
      rw [hm] at h
      cases h
      obtain ⟨hd, post, hl⟩ := matchTimeAt_some hm
      exact ⟨hd, [], post, hl⟩
    | none =>
      rw [hm] at h
      obtain ⟨hd, pre, post, hl⟩ := ih h
      exact ⟨hd, c :: pre, post, by simp [hl]⟩

theorem searchTime_isSome_cons (c : Char) (l : List Char)
    (h : (searchTime l).isSome = true) : (searchTime (c :: l)).isSome = true := by
  rw [searchTime]
  cases hm : matchTimeAt (c :: l) with
  | some g => rfl
  | none => exact h

theorem searchTime_isSome_of_marker {g : TGroups} (hg : groupsDigits g) :
    ∀ (pre post : List Char), (searchTime (pre ++ markerChars g ++ post)).isSome = true := by
  intro pre
  induction pre with
  | nil =>
    intro post
    rw [List.nil_append]
    have hcons : markerChars g ++ post =
        't' :: ('i' :: 'm' :: 'e' :: '=' :: g.h1 :: g.h2 :: ':' :: g.m1 :: g.m2 :: ':' ::
          g.s1 :: g.s2 :: '.' :: g.f1 :: g.f2 :: post) := rfl
    rw [hcons, searchTime, ← hcons, matchTimeAt_marker hg post]
    rfl
  | cons c pre ih =>
    intro post
    rw [List.cons_append]
    exact searchTime_isSome_cons c _ (ih post)

/-- **C8.**  A diagnostic line carries a progress marker exactly when it
contains an occurrence of the pattern `time=HH:MM:SS.ff` with two-digit
fields, and the timestamp the loop computes from the matched groups is
`HH*3600 + MM*60 + SS + ff/100` seconds, the fractional field counting
hundredths of a second. -/
theorem time_marker_iff_and_conversion (line : List Char) :
    ((searchTime line).isSome = true ↔ hasTimeMarker line) ∧
    (∀ g, searchTime line = some g →
      (time_to_seconds (regroup g)).val =
        (d2n g.h1 g.h2 : ℚ) * 3600 + (d2n g.m1 g.m2 : ℚ) * 60 +
        (d2n g.s1 g.s2 : ℚ) + (d2n g.f1 g.f2 : ℚ) / 100) := by
  constructor
  · constructor
    · intro h
      obtain ⟨g, hsome⟩ := Option.isSome_iff_exists.mp h
      obtain ⟨hd, pre, post, hl⟩ := searchTime_some hsome
      exact ⟨g, pre, post, hd, hl⟩
    · rintro ⟨g, pre, post, hd, rfl⟩
      exact searchTime_isSome_of_marker hd pre post
  · intro g hsome
    obtain ⟨hd, _, _, _⟩ := searchTime_some hsome
    exact time_to_seconds_regroup g hd

/-- Closed instance of `time_marker_iff_and_conversion` at a concrete
diagnostic line: the match at `time=00:01:02.03` converts to
`0*3600 + 1*60 + 2 + 3/100` seconds. -/
theorem time_marker_iff_and_conversion_applied :
    searchTime "frame=1 time=00:01:02.03 bitrate=2c".data =
      some ⟨'0', '0', '0', '1', '0', '2', '0', '3'⟩ ∧
    (time_to_seconds (regroup ⟨'0', '0', '0', '1', '0', '2', '0', '3'⟩)).val =
      (d2n '0' '0' : ℚ) * 3600 + (d2n '0' '1' : ℚ) * 60 +
      (d2n '0' '2' : ℚ) + (d2n '0' '3' : ℚ) / 100 :=
  ⟨by decide,
   (time_marker_iff_and_conversion "frame=1 time=00:01:02.03 bitrate=2c".data).2
     ⟨'0', '0', '0', '1', '0', '2', '0', '3'⟩ (by decide)⟩

/-! ## The job and batch layer -/

theorem peq_pZero_refl : peq pZero pZero = true := by decide

theorem probeSpawns_no_encoder (pb : ProberBehavior) (inp : InPath) :
    List.filter isEncoderCmd (probeSpawns pb inp) = [] := by
  have h : isEncoderCmd (probeCmd inp) = false := rfl
  cases pb <;> simp [probeSpawns, h]

/-- **C3.**  When the duration probe comes back `Unknown` (any caught
probe failure), the job ends `Skipped` with the duration-unknown log
line and no encoder subprocess is ever spawned for that file. -/
theorem unknown_duration_skips_encoder (inp : InPath) (output_dir : String)
    (use_gpu : Bool) (env : FileEnv) (h : probeEval env.prober = .failedCaught) :
    (convert_video_file inp output_dir use_gpu env).result = .ok .skippedNoDuration ∧
    List.filter isEncoderCmd (convert_video_file inp output_dir use_gpu env).spawned = [] ∧
    Log.skipNoDuration ∈ (convert_video_file inp output_dir use_gpu env).logs := by
  simp only [convert_video_file, h, runAfterProbe]
  rw [if_pos peq_pZero_refl]
  refine ⟨rfl, probeSpawns_no_encoder _ _, by simp⟩

/-- Closed instance of `unknown_duration_skips_encoder` with a missing
prober executable. -/
theorem unknown_duration_skips_encoder_applied :
    probeEval ProberBehavior.missing = .failedCaught ∧
    (convert_video_file ⟨[], "clip", ".mp4"⟩ "out" false
      ⟨.missing, false, .runs [] 0⟩).result = .ok .skippedNoDuration ∧
    List.filter isEncoderCmd (convert_video_file ⟨[], "clip", ".mp4"⟩ "out" false
      ⟨.missing, false, .runs [] 0⟩).spawned = [] :=
  ⟨by decide,
   (unknown_duration_skips_encoder ⟨[], "clip", ".mp4"⟩ "out" false
     ⟨.missing, false, .runs [] 0⟩ (by decide)).1,
   (unknown_duration_skips_encoder ⟨[], "clip", ".mp4"⟩ "out" false
     ⟨.missing, false, .runs [] 0⟩ (by decide)).2.1⟩

/-- **C10.**  `0.0` doubles as the unknown-duration sentinel: a probe
that succeeds and parses a duration equal to `0.0` is indistinguishable
from a failed probe — the file is skipped as duration-unknown (no probe
error is even logged) and the encoder is never invoked. -/
theorem zero_duration_sentinel_alias (inp : InPath) (output_dir : String)
    (use_gpu : Bool) (env : FileEnv) (s : String) (q : PyDec)
    (hp : env.prober = .output (.obj [("format", .obj [("duration", .str s)])]))
    (hq : pyFloat? s.data = some q) (h0 : peq q pZero = true) :
    get_duration env.prober = .ok q ∧ q.val = 0 ∧
    (convert_video_file inp output_dir use_gpu env).result = .ok .skippedNoDuration ∧
    List.filter isEncoderCmd (convert_video_file inp output_dir use_gpu env).spawned = [] ∧
    Log.errProbe ∉ (convert_video_file inp output_dir use_gpu env).logs ∧
    Log.skipNoDuration ∈ (convert_video_file inp output_dir use_gpu env).logs := by
  have hpe : probeEval env.prober = .ok q := by
    rw [hp]
    simp [probeEval, pyIndex, lookupJ, pyFloatJson, hq, Except.bind]
  have hval : q.val = 0 := by
    rw [(peq_iff q pZero).mp h0, val_pZero]
  refine ⟨?_, hval, ?_⟩
  · simp only [get_duration, hpe]
  · simp only [convert_video_file, hpe, runAfterProbe]
    rw [if_pos h0]
    refine ⟨rfl, probeSpawns_no_encoder _ _, by simp, by simp⟩

/-- Closed instance of `zero_duration_sentinel_alias` at the duration
string `"0.00"`. -/
theorem zero_duration_sentinel_alias_applied :
    pyFloat? "0.00".data = some ⟨0, 2⟩ ∧ peq ⟨0, 2⟩ pZero = true ∧
    get_duration (.output (.obj [("format", .obj [("duration", .str "0.00")])]))
      = .ok ⟨0, 2⟩ ∧
    (convert_video_file ⟨[], "clip", ".mp4"⟩ "out" false
      ⟨.output (.obj [("format", .obj [("duration", .str "0.00")])]), false,
        .runs [] 0⟩).result = .ok .skippedNoDuration :=
  ⟨by decide, by decide,
   (zero_duration_sentinel_alias ⟨[], "clip", ".mp4"⟩ "out" false
     ⟨.output (.obj [("format", .obj [("duration", .str "0.00")])]), false, .runs [] 0⟩
     "0.00" ⟨0, 2⟩ rfl (by decide) (by decide)).1,
   (zero_duration_sentinel_alias ⟨[], "clip", ".mp4"⟩ "out" false
     ⟨.output (.obj [("format", .obj [("duration", .str "0.00")])]), false, .runs [] 0⟩
     "0.00" ⟨0, 2⟩ rfl (by decide) (by decide)).2.2.1⟩

/-- **C4, counterexample.**  With the output file already present the
task does report `Skipped` — but a subprocess *is* spawned for the file:
the duration probe runs at line 90, before the existence check at
line 101.  So "no subprocess is spawned" is false as stated. -/
theorem existing_output_probe_still_spawned :
    (convert_video_file ⟨[], "clip", ".mp4"⟩ "out" false
      ⟨.output (.obj [("format", .obj [("duration", .str "10.0")])]), true,
        .runs [] 0⟩).result = .ok .skippedExists ∧
    (convert_video_file ⟨[], "clip", ".mp4"⟩ "out" false
      ⟨.output (.obj [("format", .obj [("duration", .str "10.0")])]), true,
        .runs [] 0⟩).spawned
      = [probeCmd ⟨[], "clip", ".mp4"⟩] ∧
    (convert_video_file ⟨[], "clip", ".mp4"⟩ "out" false
      ⟨.output (.obj [("format", .obj [("duration", .str "10.0")])]), true,
        .runs [] 0⟩).spawned ≠ [] := by
  refine ⟨by decide, by decide, by decide⟩

theorem convert_exists_no_encoder (inp : InPath) (output_dir : String) (use_gpu : Bool)
    (env : FileEnv) (hex : env.outputExists = true) :
    List.filter isEncoderCmd (convert_video_file inp output_dir use_gpu env).spawned = [] := by
  simp only [convert_video_file]
  cases hpe : probeEval env.prober with
  | raisedTypeError => exact probeSpawns_no_encoder _ _
  | failedCaught =>
    simp only [runAfterProbe]
    rw [if_pos peq_pZero_refl]
    exact probeSpawns_no_encoder _ _
  | ok q =>
    simp only [runAfterProbe]
    by_cases hq0 : peq q pZero = true
    · rw [if_pos hq0]
      exact probeSpawns_no_encoder _ _
    · rw [if_neg hq0, if_pos hex]
      exact probeSpawns_no_encoder _ _

theorem runFiles_no_encoder (output_dir : String) (use_gpu : Bool)
    (envOf : InPath → FileEnv) :
    ∀ fs : List InPath, (∀ f ∈ fs, (envOf f).outputExists = true) →
      List.filter isEncoderCmd (runFiles output_dir use_gpu envOf fs).spawned = [] := by
  intro fs
  induction fs with
  | nil => intro _; rfl
  | cons f rest ih =>
    intro h
    have hf := convert_exists_no_encoder f output_dir use_gpu (envOf f)
      (h f (List.mem_cons_self f rest))
    simp only [runFiles]
    cases hr : (convert_video_file f output_dir use_gpu (envOf f)).result with
    | ok o =>
      show List.filter isEncoderCmd
        ((convert_video_file f output_dir use_gpu (envOf f)).spawned ++
          (runFiles output_dir use_gpu envOf rest).spawned) = []
      rw [List.filter_append, hf, ih (fun x hx => h x (List.mem_cons_of_mem f hx)),
        List.nil_append]
    | error e =>
      exact hf

/-- **C4, amended.**  With the output file already present the task
reports `Skipped` and no *encoder* subprocess is spawned for that file
(the duration-probe subprocess still runs, before the existence check);
consequently re-running the batch with every output already present
produces zero encoder invocations. -/
theorem existing_output_skips_encoder (output_dir : String) (use_gpu : Bool) :
    (∀ (inp : InPath) (env : FileEnv), env.outputExists = true →
      List.filter isEncoderCmd (convert_video_file inp output_dir use_gpu env).spawned = []) ∧
    (∀ (inp : InPath) (env : FileEnv) (q : PyDec), env.outputExists = true →
      probeEval env.prober = .ok q → peq q pZero = false →
      (convert_video_file inp output_dir use_gpu env).result = .ok .skippedExists ∧
      Log.skipExists ∈ (convert_video_file inp output_dir use_gpu env).logs) ∧
    (∀ (files : List InPath) (envOf : InPath → FileEnv),
      (∀ f, (envOf f).outputExists = true) →
      List.filter isEncoderCmd
        (process_directory files output_dir use_gpu envOf).spawned = []) := by
  refine ⟨fun inp env hex => convert_exists_no_encoder inp output_dir use_gpu env hex,
    ?_, ?_⟩
  · intro inp env q hex hpe hq0
    simp only [convert_video_file, hpe, runAfterProbe]
    rw [if_neg (by simp [hq0]), if_pos hex]
    exact ⟨rfl, by simp⟩
  · intro files envOf h
    exact runFiles_no_encoder output_dir use_gpu envOf _ (fun f _ => h f)

/-- Closed instance of `existing_output_skips_encoder`. -/
theorem existing_output_skips_encoder_applied :
    (⟨.output (.obj [("format", .obj [("duration", .str "10.0")])]), true,
        .runs [] 0⟩ : FileEnv).outputExists = true ∧
    probeEval (FileEnv.prober ⟨.output (.obj [("format", .obj [("duration", .str "10.0")])]),
        true, .runs [] 0⟩) = .ok ⟨100, 1⟩ ∧
    peq ⟨100, 1⟩ pZero = false ∧
    (convert_video_file ⟨[], "clip", ".mp4"⟩ "out" false
      ⟨.output (.obj [("format", .obj [("duration", .str "10.0")])]), true,
        .runs [] 0⟩).result = .ok .skippedExists :=
  ⟨rfl, by decide, by decide,
   ((existing_output_skips_encoder "out" false).2.1 ⟨[], "clip", ".mp4"⟩
     ⟨.output (.obj [("format", .obj [("duration", .str "10.0")])]), true, .runs [] 0⟩
     ⟨100, 1⟩ rfl (by decide) (by decide)).1⟩

/-- **C5.**  For a fixed input string and output string, the two encoder
argument lists share the leading fields `cmdShared1` and the trailing
fields `cmdShared2` (container tag, audio codec `aac`, audio bitrate
`192k`, statistics flag, output) verbatim, share the preset, and differ
exactly in the codec name, the quality flag and value (`-crf 20` vs
`-cq 23`), and the presence of the extra rate-control flags. -/
theorem command_mode_difference (inp out : String) :
    buildCommand false inp out =
      cmdShared1 inp ++ ["libx265"] ++ ["-crf", "20"] ++ ["-preset", "medium"]
        ++ ([] : List String) ++ cmdShared2 out ∧
    buildCommand true inp out =
      cmdShared1 inp ++ ["hevc_nvenc"] ++ ["-cq", "23"] ++ ["-preset", "medium"]
        ++ ["-rc", "vbr", "-b:v", "0k", "-qmin", "0", "-qmax", "51"] ++ cmdShared2 out :=
  ⟨rfl, rfl⟩

/-- **C9.**  The output location is a pure function of the input stem,
the profile tag and the fixed `.mp4` extension — independent of the
input's directory components and extension — and it sits directly in
the output directory (flat layout), named `<stem>_<tag>.mp4`. -/
theorem output_path_pure_and_flat (output_dir : String) (use_gpu : Bool)
    (dirs1 dirs2 : List String) (stem e1 e2 : String) :
    outputPathOf output_dir ⟨dirs1, stem, e1⟩ use_gpu
      = outputPathOf output_dir ⟨dirs2, stem, e2⟩ use_gpu ∧
    outputPathOf output_dir ⟨dirs1, stem, e1⟩ use_gpu
      = (output_dir, stem ++ "_" ++ (profileOf use_gpu).tag ++ OUTPUT_EXTENSION) :=
  ⟨rfl, rfl⟩

/-! ## The probe boundary and batch enumeration -/

theorem lookupJ_singleton (k : String) (v : PyJson) : lookupJ [(k, v)] k = some v := by
  simp [lookupJ]

/-- **C6, counterexample.**  A prober response whose `format.duration`
field is JSON `null` is a non-numeric duration value, yet `get_duration`
does not map it to the `Unknown` result: `float(None)` raises a
`TypeError`, which is not in the caught exception tuple at line 64 and
escapes the probe boundary. -/
theorem get_duration_typeerror_escapes :
    get_duration (.output (.obj [("format", .obj [("duration", PyJson.null)])]))
      = .error .typeError ∧
    get_duration (.output (.obj [("format", .obj [("duration", PyJson.null)])]))
      ≠ .ok pZero := by
  refine ⟨by decide, by decide⟩

/-- **C6, amended.**  A missing prober executable, a non-zero prober
exit status, unparseable JSON text, a missing `format` or `duration`
field, and a string duration value that `float` rejects all map to the
`Unknown` result (`0.0`), and on success the parsed duration is
returned (string or number valued); but a duration value of a
non-string, non-numeric JSON type (e.g. `null`) raises a `TypeError`
past the probe boundary instead of mapping to `Unknown`. -/
theorem get_duration_failure_map :
    get_duration .missing = .ok pZero ∧
    get_duration .exitNonzero = .ok pZero ∧
    get_duration .badJson = .ok pZero ∧
    (∀ fields, lookupJ fields "format" = none →
      get_duration (.output (.obj fields)) = .ok pZero) ∧
    (∀ fields, lookupJ fields "duration" = none →
      get_duration (.output (.obj [("format", .obj fields)])) = .ok pZero) ∧
    (∀ s : String, pyFloat? s.data = none →
      get_duration (.output (.obj [("format", .obj [("duration", .str s)])]))
        = .ok pZero) ∧
    (∀ (s : String) (q : PyDec), pyFloat? s.data = some q →
      get_duration (.output (.obj [("format", .obj [("duration", .str s)])])) = .ok q) ∧
    (∀ q : PyDec,
      get_duration (.output (.obj [("format", .obj [("duration", .num q)])])) = .ok q) ∧
    get_duration (.output (.obj [("format", .obj [("duration", PyJson.null)])]))
      = .error .typeError := by
  refine ⟨rfl, rfl, rfl, ?_, ?_, ?_, ?_, fun q => rfl, rfl⟩
  · intro fields h
    simp [get_duration, probeEval, pyIndex, h, Except.bind]
  · intro fields h
    simp [get_duration, probeEval, pyIndex, lookupJ_singleton, h, Except.bind]
  · intro s hs
    simp [get_duration, probeEval, pyIndex, lookupJ_singleton, pyFloatJson, hs, Except.bind]
  · intro s q hs
    simp [get_duration, probeEval, pyIndex, lookupJ_singleton, pyFloatJson, hs, Except.bind]

/-- Closed instance of `get_duration_failure_map`. -/
theorem get_duration_failure_map_applied :
    lookupJ [] "format" = none ∧
    get_duration (.output (.obj [])) = .ok pZero ∧
    pyFloat? "x1".data = none ∧
    get_duration (.output (.obj [("format", .obj [("duration", .str "x1")])]))
      = .ok pZero ∧
    pyFloat? "12.5".data = some ⟨125, 1⟩ ∧
    get_duration (.output (.obj [("format", .obj [("duration", .str "12.5")])]))
      = .ok ⟨125, 1⟩ :=
  ⟨rfl, get_duration_failure_map.2.2.2.1 [] rfl, by decide,
   get_duration_failure_map.2.2.2.2.2.1 "x1" (by decide), by decide,
   get_duration_failure_map.2.2.2.2.2.2.1 "12.5" ⟨125, 1⟩ (by decide)⟩

/-- **C2** (evaluation at the failing input).  With the encoder
executable absent and two matching files, the run is *not* aborted:
both files are issued jobs, the run ends normally with both recorded as
encoder-missing failures, and for each file the `[INFO]` profile line
and the `[START]` line are printed before the `[FATAL ERROR]` report —
the abort the spec describes never happens (the `FileNotFoundError`
handler at line 196 merely returns from the current file's job). -/
theorem encoder_missing_does_not_abort_run :
    (process_directory [⟨[], "a", ".mp4"⟩, ⟨[], "b", ".mp4"⟩] "out" false
      (fun _ => ⟨.output (.obj [("format", .obj [("duration", .str "10.0")])]), false,
        .missing⟩)).invoked = [⟨[], "a", ".mp4"⟩, ⟨[], "b", ".mp4"⟩] ∧
    (process_directory [⟨[], "a", ".mp4"⟩, ⟨[], "b", ".mp4"⟩] "out" false
      (fun _ => ⟨.output (.obj [("format", .obj [("duration", .str "10.0")])]), false,
        .missing⟩)).results =
      [(⟨[], "a", ".mp4"⟩, .fatalEncoderMissing), (⟨[], "b", ".mp4"⟩, .fatalEncoderMissing)] ∧
    (process_directory [⟨[], "a", ".mp4"⟩, ⟨[], "b", ".mp4"⟩] "out" false
      (fun _ => ⟨.output (.obj [("format", .obj [("duration", .str "10.0")])]), false,
        .missing⟩)).crashed = none ∧
    (convert_video_file ⟨[], "a", ".mp4"⟩ "out" false
      ⟨.output (.obj [("format", .obj [("duration", .str "10.0")])]), false,
        .missing⟩).logs = [Log.infoMode false, Log.start, Log.fatalNotFound] := by
  refine ⟨by decide, by decide, by decide, by decide⟩

theorem runFiles_all_ok (output_dir : String) (use_gpu : Bool)
    (envOf : InPath → FileEnv) :
    ∀ fs : List InPath,
      (∀ f ∈ fs, (convert_video_file f output_dir use_gpu (envOf f)).result.isOk = true) →
      (runFiles output_dir use_gpu envOf fs).invoked = fs ∧
      (runFiles output_dir use_gpu envOf fs).results.map Prod.fst = fs ∧
      (runFiles output_dir use_gpu envOf fs).crashed = none := by
  intro fs
  induction fs with
  | nil => intro _; exact ⟨rfl, rfl, rfl⟩
  | cons f rest ih =>
    intro h
    have hf := h f (List.mem_cons_self f rest)
    simp only [runFiles]
    cases hr : (convert_video_file f output_dir use_gpu (envOf f)).result with
    | ok o =>
      obtain ⟨h1, h2, h3⟩ := ih (fun x hx => h x (List.mem_cons_of_mem f hx))
      refine ⟨?_, ?_, h3⟩
      · show f :: (runFiles output_dir use_gpu envOf rest).invoked = f :: rest
        rw [h1]
      · show ((f, o) :: (runFiles output_dir use_gpu envOf rest).results).map Prod.fst
          = f :: rest
        rw [List.map_cons, h2]
    | error e =>
      rw [hr] at hf
      simp [Except.isOk, Except.toBool] at hf

/-- **C7, amended.**  Provided no file's probe response raises the
uncaught `TypeError` of `get_duration` (a non-string, non-numeric JSON
duration value), an individual file's failure never stops enumeration:
every discovered matching file is issued exactly one job, in order, and
one terminal outcome is recorded per file (classified by `statusOf`
into Success / Skipped / Failed, with the encoder-missing fatal report
counted as Failed).  A probe `TypeError` does abort enumeration of the
remaining files. -/
theorem batch_attempts_every_discovered_file (files : List InPath) (output_dir : String)
    (use_gpu : Bool) (envOf : InPath → FileEnv)
    (hok : ∀ f ∈ files.filter (fun f => matchesInputExt f.name),
      (convert_video_file f output_dir use_gpu (envOf f)).result.isOk = true) :
    (process_directory files output_dir use_gpu envOf).invoked
        = files.filter (fun f => matchesInputExt f.name) ∧
    (process_directory files output_dir use_gpu envOf).results.map Prod.fst
        = files.filter (fun f => matchesInputExt f.name) ∧
    (process_directory files output_dir use_gpu envOf).crashed = none :=
  runFiles_all_ok output_dir use_gpu envOf _ hok

/-- Closed instance of `batch_attempts_every_discovered_file`. -/
theorem batch_attempts_every_discovered_file_applied :
    (∀ f ∈ List.filter (fun f => matchesInputExt f.name)
        [(⟨[], "a", ".mp4"⟩ : InPath), ⟨[], "b", ".mkv"⟩],
      (convert_video_file f "out" false
        ((fun _ => (⟨.missing, false, .runs [] 0⟩ : FileEnv)) f)).result.isOk = true) ∧
    (process_directory [(⟨[], "a", ".mp4"⟩ : InPath), ⟨[], "b", ".mkv"⟩] "out" false
      (fun _ => ⟨.missing, false, .runs [] 0⟩)).invoked
      = List.filter (fun f => matchesInputExt f.name)
          [(⟨[], "a", ".mp4"⟩ : InPath), ⟨[], "b", ".mkv"⟩] :=
  ⟨by decide,
   (batch_attempts_every_discovered_file [⟨[], "a", ".mp4"⟩, ⟨[], "b", ".mkv"⟩] "out" false
     (fun _ => ⟨.missing, false, .runs [] 0⟩) (by decide)).1⟩

/-- **C7, counterexample.**  Both files pass the extension filter, but
with the first file's probe responding `{"format": null}` the job
raises the uncaught `TypeError` and the loop dies: only the first file
is ever invoked, no outcome is recorded for it, and the second file is
never attempted — enumeration did not continue past the failure. -/
theorem probe_typeerror_aborts_enumeration :
    List.filter (fun f => matchesInputExt f.name)
        [(⟨[], "a", ".mp4"⟩ : InPath), ⟨[], "b", ".mp4"⟩]
      = [⟨[], "a", ".mp4"⟩, ⟨[], "b", ".mp4"⟩] ∧
    (process_directory [⟨[], "a", ".mp4"⟩, ⟨[], "b", ".mp4"⟩] "out" false
      (fun f => if f.stem = "a"
        then ⟨.output (.obj [("format", PyJson.null)]), false, .runs [] 0⟩
        else ⟨.output (.obj [("format", .obj [("duration", PyJson.str "10.0")])]), false,
          .runs [] 0⟩)).invoked = [⟨[], "a", ".mp4"⟩] ∧
    (process_directory [⟨[], "a", ".mp4"⟩, ⟨[], "b", ".mp4"⟩] "out" false
      (fun f => if f.stem = "a"
        then ⟨.output (.obj [("format", PyJson.null)]), false, .runs [] 0⟩
        else ⟨.output (.obj [("format", .obj [("duration", PyJson.str "10.0")])]), false,
          .runs [] 0⟩)).results = [] ∧
    (process_directory [⟨[], "a", ".mp4"⟩, ⟨[], "b", ".mp4"⟩] "out" false
      (fun f => if f.stem = "a"
        then ⟨.output (.obj [("format", PyJson.null)]), false, .runs [] 0⟩
        else ⟨.output (.obj [("format", .obj [("duration", PyJson.str "10.0")])]), false,
          .runs [] 0⟩)).crashed = some .typeError := by
  refine ⟨by decide, by decide, by decide, by decide⟩
